import Mathlib

/-!
Shallow embedding of src/src/prediction/predictor_model.py (a thin adapter
around an external decision-tree binary classifier) and verification of its
specification.

Modelling conventions:
* Python floats are embedded as rationals.
* An input table is a list of rows; a row is a list of rational feature values.
* Exceptions are embedded with Except over an error-kind type.
* The external library call model.predict_proba is embedded as a per-row
  probability function stored in the model; calling it before fit raises
  NotFittedError, matching the external library behaviour.  The tree-induction
  algorithm itself is external to the repository and out of spec scope, so fit
  is parametrised by an abstract learning oracle producing that function.
* joblib serialisation is embedded as storing the adapter object itself in a
  modelled filesystem (a set of directories plus a map from paths to blobs).
-/

deriving instance DecidableEq for Except

namespace PredictorModel

/-- Kinds of Python exception the adapter or the libraries it calls can raise. -/
inductive PyError where
  | notFittedError
  | fileNotFoundError
  | valueError
  | unboundLocalError
  | attributeError
deriving DecidableEq, Repr

/-- A feature row of the input table: numeric feature values. -/
abbrev Row := List ℚ

/-- A training dataset: row-aligned features and binary targets. -/
structure TrainData where
  inputs : List Row
  targets : List ℕ

/-- Embedding of the external DecisionTreeClassifier object built by
build_model: its constructor arguments plus its fitted state.  The per-row
class-probability function probaFn is meaningful only once isFitted is true
(the library raises NotFittedError before fit); the initial dummy value is
never observable. -/
structure DTModel where
  min_samples_split : ℤ
  min_samples_leaf : ℤ
  class_weight_pos : ℚ
  isFitted : Bool
  probaFn : Row → ℚ × ℚ

/-- External library predict_proba: per-row class probabilities
(negative-class, positive-class); raises NotFittedError before fit. -/
def DTModel.predict_proba (m : DTModel) (inputs : List Row) :
    Except PyError (List (ℚ × ℚ)) :=
  if m.isFitted then .ok (inputs.map m.probaFn) else .error .notFittedError

/-- External library fit: the learning algorithm is abstracted as an oracle
learn from the training data to a per-row probability function. -/
def DTModel.fit (m : DTModel) (learn : TrainData → Row → ℚ × ℚ)
    (d : TrainData) : DTModel :=
  { m with isFitted := true, probaFn := learn d }

/-- Python int() applied to a numeric value: truncation toward zero.
For a normalised rational this is num / den with truncating Int division. -/
def pyInt (q : ℚ) : ℤ := q.num.tdiv q.den

/-- The Classifier adapter: hyperparameter fields, the wrapped model object
(always present after __init__, but the source guards predict and evaluate
with a model-is-not-None check, hence the Option), and the trained flag. -/
structure Classifier where
  min_samples_split : ℤ
  min_samples_leaf : ℤ
  decision_threshold : ℚ
  positive_class_weight : ℚ
  model : Option DTModel
  is_trained : Bool

/-- Classifier.__init__: coerce the hyperparameters (int() on the sample
counts, float() on the threshold and weight), build the untrained model with
class_weight pairing the negative class with 1 and the positive class with
positive_class_weight, and clear the trained flag.  The flexible keyword
arguments (kwargs) are absorbed by the signature and never read. -/
def Classifier.init (min_samples_split : ℚ) (min_samples_leaf : ℚ)
    (decision_threshold : ℚ) (positive_class_weight : ℚ)
    (kwargs : List (String × ℚ)) : Classifier :=
  { min_samples_split := pyInt min_samples_split
    min_samples_leaf := pyInt min_samples_leaf
    decision_threshold := decision_threshold
    positive_class_weight := positive_class_weight
    model := some
      { min_samples_split := pyInt min_samples_split
        min_samples_leaf := pyInt min_samples_leaf
        class_weight_pos := positive_class_weight
        isFitted := false
        probaFn := fun _ => (0, 0) }
    is_trained := false }

/-- Classifier.fit: fit the wrapped model in place and set the trained flag.
Accessing fit on a None model would raise AttributeError. -/
def Classifier.fit (c : Classifier) (learn : TrainData → Row → ℚ × ℚ)
    (train_inputs : List Row) (train_targets : List ℕ) :
    Except PyError Classifier :=
  match c.model with
  | none => .error .attributeError
  | some m => .ok { c with
      model := some (m.fit learn ⟨train_inputs, train_targets⟩)
      is_trained := true }

/-- Classifier.predict_proba: delegate to the wrapped model. -/
def Classifier.predict_proba (c : Classifier) (inputs : List Row) :
    Except PyError (List (ℚ × ℚ)) :=
  match c.model with
  | none => .error .attributeError
  | some m => m.predict_proba inputs

/-- Classifier.predict: resolve the sentinel threshold -1 to the current
decision_threshold field, then threshold the positive-class probabilities.
When the model is None the source falls past the if and returns the unbound
local labels, raising UnboundLocalError. -/
def Classifier.predict (c : Classifier) (inputs : List Row)
    (decision_threshold : ℚ) : Except PyError (List Bool) :=
  let t := if decision_threshold = -1 then c.decision_threshold
           else decision_threshold
  match c.model with
  | none => .error .unboundLocalError
  | some _ =>
      (c.predict_proba inputs).map (fun prob =>
        prob.map (fun p => decide (t ≤ p.2)))

/-- sklearn.metrics.f1_score with pos_label 1 on binary data: 2tp /
(2tp + fp + fn), returning 0 when the denominator is 0 (zero_division
behaviour with warnings suppressed).  Mismatched lengths and non-binary
targets raise ValueError. -/
def f1_score (y_true : List ℕ) (y_pred : List Bool) : Except PyError ℚ :=
  if y_true.length = y_pred.length then
    if y_true.any (fun y => y ≠ 0 && y ≠ 1) then .error .valueError
    else
      let pairs := y_true.zip y_pred
      let tp := (pairs.filter (fun p => p.1 == 1 && p.2)).length
      let fp := (pairs.filter (fun p => p.1 != 1 && p.2)).length
      let fn := (pairs.filter (fun p => p.1 == 1 && !p.2)).length
      if 2 * tp + fp + fn = 0 then .ok 0
      else .ok ((2 * tp : ℚ) / ((2 * tp + fp + fn : ℕ) : ℚ))
  else .error .valueError

/-- Classifier.evaluate: same threshold resolution as predict, then the F1
score of the thresholded labels against the targets.  When the model is None
the source falls past the if and implicitly returns None. -/
def Classifier.evaluate (c : Classifier) (test_inputs : List Row)
    (test_targets : List ℕ) (decision_threshold : ℚ) :
    Except PyError (Option ℚ) :=
  let t := if decision_threshold = -1 then c.decision_threshold
           else decision_threshold
  match c.model with
  | none => .ok none
  | some _ =>
      match c.predict_proba test_inputs with
      | .error e => .error e
      | .ok prob =>
          let labels := prob.map (fun p => decide (t ≤ p.2))
          match f1_score test_targets labels with
          | .error e => .error e
          | .ok score => .ok (some score)

/-- The fixed artifact filename. -/
def PREDICTOR_FILE_NAME : String := "predictor.joblib"

/-- os.path.join for our purposes. -/
def joinPath (dir name : String) : String := dir ++ "/" ++ name

/-- The modelled filesystem: the set of existing directories and the files,
each a path mapped to a serialised Classifier blob (joblib serialisation is
embedded as the object itself). -/
structure FS where
  dirs : List String
  files : List (String × Classifier)

/-- Write a blob at a path, replacing any previous file there. -/
def fsWrite (files : List (String × Classifier)) (path : String)
    (blob : Classifier) : List (String × Classifier) :=
  (path, blob) :: files.filter (fun kv => !(kv.1 == path))

/-- Read the blob at a path, if any. -/
def fsRead (files : List (String × Classifier)) (path : String) :
    Option Classifier :=
  (files.find? (fun kv => kv.1 == path)).map (·.2)

/-- Classifier.save: raise NotFittedError when untrained (leaving the
filesystem untouched); otherwise joblib.dump the whole adapter to the fixed
filename inside the directory, which must already exist. -/
def Classifier.save (c : Classifier) (model_dir_path : String) (fs : FS) :
    FS × Except PyError Unit :=
  if !c.is_trained then (fs, .error .notFittedError)
  else if fs.dirs.contains model_dir_path then
    ({ fs with
        files := fsWrite fs.files (joinPath model_dir_path PREDICTOR_FILE_NAME) c },
     .ok ())
  else (fs, .error .fileNotFoundError)

/-- Classifier.load: joblib.load the adapter from the fixed filename inside
the directory; raises when the file is absent. -/
def Classifier.load (model_dir_path : String) (fs : FS) :
    Except PyError Classifier :=
  match fsRead fs.files (joinPath model_dir_path PREDICTOR_FILE_NAME) with
  | some c => .ok c
  | none => .error .fileNotFoundError

/-- The hyperparameter-dict keys bound by the named parameters of
Classifier.__init__; every other key lands in kwargs. -/
def recognizedKeys : List String :=
  ["min_samples_split", "min_samples_leaf", "decision_threshold",
   "positive_class_weight"]

/-- Dict lookup with a default, mirroring Python keyword binding. -/
def dictLookup (d : List (String × ℚ)) (k : String) (dflt : ℚ) : ℚ :=
  match d.find? (fun kv => kv.1 == k) with
  | some kv => kv.2
  | none => dflt

/-- Classifier(**hyperparameters): each recognised key binds its named
parameter (falling back to the declared default), and the remaining keys are
passed as kwargs. -/
def classifierOfDict (d : List (String × ℚ)) : Classifier :=
  Classifier.init (dictLookup d "min_samples_split" 2)
    (dictLookup d "min_samples_leaf" 1)
    (dictLookup d "decision_threshold" (mkRat 1 2))
    (dictLookup d "positive_class_weight" 1)
    (d.filter (fun kv => !(recognizedKeys.contains kv.1)))

/-- train_predictor_model: construct from the hyperparameter dict, then fit. -/
def train_predictor_model (train_inputs : List Row) (train_targets : List ℕ)
    (hyperparameters : List (String × ℚ))
    (learn : TrainData → Row → ℚ × ℚ) : Except PyError Classifier :=
  (classifierOfDict hyperparameters).fit learn train_inputs train_targets

/-- save_predictor_model: create the directory when missing, then delegate to
Classifier.save; a raised error propagates with the directory creation kept. -/
def save_predictor_model (model : Classifier) (predictor_dir_path : String)
    (fs : FS) : FS × Except PyError Unit :=
  let fs1 := if fs.dirs.contains predictor_dir_path then fs
             else { fs with dirs := predictor_dir_path :: fs.dirs }
  model.save predictor_dir_path fs1

/-- set_decision_threshold: direct field mutation on the adapter. -/
def set_decision_threshold (model : Classifier) (decision_threshold : ℚ) :
    Classifier :=
  { model with decision_threshold := decision_threshold }

/-- A concrete fitted adapter whose model assigns the constant probability
pair p to every row, used to instantiate theorems at concrete inputs. -/
def mkFitted (threshold : ℚ) (p : ℚ × ℚ) : Classifier :=
  ((Classifier.init 2 1 threshold 1 []).fit (fun _ _ => p) [[0]] [1]).toOption.getD
    (Classifier.init 2 1 threshold 1 [])

/-- The wrapped model object of mkFitted. -/
def mkFittedModel (p : ℚ × ℚ) : DTModel :=
  { min_samples_split := pyInt 2
    min_samples_leaf := pyInt 1
    class_weight_pos := 1
    isFitted := true
    probaFn := fun _ => p }

/-- The wrapped model object of a freshly constructed Classifier.init with
the default hyperparameters. -/
def initModel : DTModel :=
  { min_samples_split := pyInt 2
    min_samples_leaf := pyInt 1
    class_weight_pos := 1
    isFitted := false
    probaFn := fun _ => (0, 0) }

/-- A fitted adapter constructed with threshold 0.5 whose positive-class
probability is 7/10 on every row, then mutated to threshold 9/10. -/
def cSetThreshold : Classifier :=
  set_decision_threshold (mkFitted (mkRat 1 2) (mkRat 3 10, mkRat 7 10))
    (mkRat 9 10)

/-! ## Helper lemmas -/

theorem predict_sentinel_eq (c : Classifier) (inputs : List Row) :
    c.predict inputs (-1) = c.predict inputs c.decision_threshold := by
  unfold Classifier.predict
  by_cases h : c.decision_threshold = -1 <;> simp [h]

theorem evaluate_sentinel_eq (c : Classifier) (inputs : List Row)
    (targets : List ℕ) :
    c.evaluate inputs targets (-1)
      = c.evaluate inputs targets c.decision_threshold := by
  unfold Classifier.evaluate
  by_cases h : c.decision_threshold = -1 <;> simp [h]

theorem f1_score_mem_unit (y : List ℕ) (p : List Bool) (s : ℚ)
    (h : f1_score y p = .ok s) : 0 ≤ s ∧ s ≤ 1 := by
  unfold f1_score at h
  split at h
  · split at h
    · exact absurd h (by simp)
    · dsimp only at h
      split at h
      · cases h
        norm_num
      · rename_i hnz
        cases h
        set tp := _
        set fp := _
        set fn := _
        have hden : (0:ℚ) < ((2 * tp + fp + fn : ℕ) : ℚ) := by
          exact_mod_cast Nat.pos_of_ne_zero hnz
        constructor
        · positivity
        · rw [div_le_one hden]
          push_cast
          linarith [Nat.cast_nonneg (α := ℚ) fp, Nat.cast_nonneg (α := ℚ) fn]
  · exact absurd h (by simp)

theorem f1_score_isOk (y : List ℕ) (p : List Bool)
    (hlen : y.length = p.length) (hbin : ∀ a ∈ y, a = 0 ∨ a = 1) :
    ∃ s, f1_score y p = .ok s := by
  unfold f1_score
  rw [if_pos hlen]
  have hany : (y.any (fun a => a ≠ 0 && a ≠ 1)) = false := by
    simp only [List.any_eq_false, Bool.and_eq_true, decide_eq_true_eq,
      not_and, Bool.not_eq_true]
    intro a ha
    rcases hbin a ha with h | h <;> simp [h]
  rw [hany]
  simp only [Bool.false_eq_true, if_false]
  split <;> exact ⟨_, rfl⟩

theorem fsRead_fsWrite (files : List (String × Classifier)) (path : String)
    (blob : Classifier) : fsRead (fsWrite files path blob) path = some blob := by
  simp [fsRead, fsWrite, List.find?]

theorem dictLookup_append_unrecognized (d e : List (String × ℚ)) (k : String)
    (dflt : ℚ) (hk : recognizedKeys.contains k = true)
    (h : ∀ kv ∈ e, recognizedKeys.contains kv.1 = false) :
    dictLookup (d ++ e) k dflt = dictLookup d k dflt := by
  unfold dictLookup
  rw [List.find?_append]
  have he : e.find? (fun kv => kv.1 == k) = none := by
    apply List.find?_eq_none.mpr
    intro kv hkv hbeq
    have heq : kv.1 = k := beq_iff_eq.mp hbeq
    have hfalse := h kv hkv
    rw [heq] at hfalse
    rw [hfalse] at hk
    exact Bool.false_ne_true hk
  rw [he]
  cases d.find? (fun kv => kv.1 == k) <;> rfl

/-! ## Claim theorems -/

/-- C1: for a fitted Classifier and any threshold t in the unit interval,
predict(x, t) is exactly the boolean array predict_proba(x)[:,1] thresholded
at t, one label per row with order preserved; and predict with the sentinel
threshold -1 agrees with predict at the current decision_threshold field. -/
theorem predict_matches_thresholded_proba (c : Classifier) (m : DTModel)
    (inputs : List Row) (t : ℚ) (hm : c.model = some m)
    (hf : m.isFitted = true) (ht0 : 0 ≤ t) (ht1 : t ≤ 1) :
    c.predict inputs t
      = (c.predict_proba inputs).map (fun prob =>
          prob.map (fun p => decide (t ≤ p.2)))
    ∧ c.predict inputs (-1) = c.predict inputs c.decision_threshold := by
  refine ⟨?_, predict_sentinel_eq c inputs⟩
  have hne : ¬ t = -1 := by
    intro h
    rw [h] at ht0
    norm_num at ht0
  unfold Classifier.predict
  rw [hm]
  simp [hne]

theorem predict_matches_thresholded_proba_witness :
    ((mkFitted (mkRat 1 2) (mkRat 3 10, mkRat 7 10)).model
        = some (mkFittedModel (mkRat 3 10, mkRat 7 10))
      ∧ (mkFittedModel (mkRat 3 10, mkRat 7 10)).isFitted = true
      ∧ (0:ℚ) ≤ 1 ∧ (1:ℚ) ≤ 1)
    ∧ ((mkFitted (mkRat 1 2) (mkRat 3 10, mkRat 7 10)).predict [[0]] 1
      = ((mkFitted (mkRat 1 2) (mkRat 3 10, mkRat 7 10)).predict_proba
          [[0]]).map (fun prob => prob.map (fun p => decide ((1:ℚ) ≤ p.2)))
      ∧ (mkFitted (mkRat 1 2) (mkRat 3 10, mkRat 7 10)).predict [[0]] (-1)
        = (mkFitted (mkRat 1 2) (mkRat 3 10, mkRat 7 10)).predict [[0]]
            (mkFitted (mkRat 1 2) (mkRat 3 10, mkRat 7 10)).decision_threshold) :=
  ⟨⟨rfl, rfl, by norm_num, le_refl 1⟩,
    predict_matches_thresholded_proba _ _ [[0]] 1 rfl rfl (by norm_num)
      (le_refl 1)⟩

/-- C2 counterexample: an adapter constructed with decision_threshold 0.5 and
mutated via set_decision_threshold to 9/10 classifies a row with
positive-class probability 7/10 as negative under the sentinel -1, whereas
thresholding at the construction-time value 0.5 classifies it positive: the
sentinel does not use the construction-time threshold. -/
theorem sentinel_constructor_threshold_counterexample :
    cSetThreshold.predict [[0]] (-1) = .ok [false]
    ∧ cSetThreshold.predict [[0]] (mkRat 1 2) = .ok [true]
    ∧ (mkFitted (mkRat 1 2) (mkRat 3 10, mkRat 7 10)).decision_threshold
        = mkRat 1 2 := by
  exact ⟨by decide, by decide, rfl⟩

/-- C2 amended: predict with the sentinel threshold -1 uses the current
decision_threshold field of the instance, so after set_decision_threshold(t)
the sentinel thresholds at t, not at the construction-time value. -/
theorem sentinel_uses_current_threshold (c : Classifier) (t : ℚ)
    (inputs : List Row) :
    (set_decision_threshold c t).predict inputs (-1)
      = (set_decision_threshold c t).predict inputs t := by
  exact predict_sentinel_eq (set_decision_threshold c t) inputs

/-- C3: save on an untrained Classifier raises NotFittedError and leaves the
filesystem exactly as it was: no file is created and no file is changed. -/
theorem save_untrained_raises_notfitted (c : Classifier) (dir : String)
    (fs : FS) (h : c.is_trained = false) :
    c.save dir fs = (fs, .error .notFittedError) := by
  simp [Classifier.save, h]

theorem save_untrained_raises_notfitted_witness :
    (Classifier.init 2 1 (mkRat 1 2) 1 []).is_trained = false
    ∧ (Classifier.init 2 1 (mkRat 1 2) 1 []).save "model"
        ⟨["model"], []⟩ = (⟨["model"], []⟩, .error .notFittedError) :=
  ⟨by decide, save_untrained_raises_notfitted _ "model" _ (by decide)⟩

/-- C4: for a fitted Classifier, save into an existing directory followed by
load from that directory yields an adapter whose predict and predict_proba
outputs agree with the original on every input. -/
theorem save_load_roundtrip (c : Classifier) (dir : String) (fs : FS)
    (h1 : c.is_trained = true) (h2 : fs.dirs.contains dir = true) :
    ∃ c2, Classifier.load dir (c.save dir fs).1 = .ok c2
      ∧ (∀ inputs t, c2.predict inputs t = c.predict inputs t)
      ∧ (∀ inputs, c2.predict_proba inputs = c.predict_proba inputs) := by
  refine ⟨c, ?_, fun _ _ => rfl, fun _ => rfl⟩
  simp only [Classifier.save, h1, Bool.not_true, Bool.false_eq_true, if_false,
    h2, if_true]
  unfold Classifier.load
  rw [fsRead_fsWrite]

theorem save_load_roundtrip_witness :
    ((mkFitted (mkRat 1 2) (mkRat 3 10, mkRat 7 10)).is_trained = true
      ∧ (FS.mk ["model"] []).dirs.contains "model" = true)
    ∧ ∃ c2, Classifier.load "model"
          ((mkFitted (mkRat 1 2) (mkRat 3 10, mkRat 7 10)).save "model"
            ⟨["model"], []⟩).1 = .ok c2
        ∧ (∀ inputs t, c2.predict inputs t
            = (mkFitted (mkRat 1 2) (mkRat 3 10, mkRat 7 10)).predict inputs t)
        ∧ (∀ inputs, c2.predict_proba inputs
            = (mkFitted (mkRat 1 2) (mkRat 3 10, mkRat 7 10)).predict_proba
                inputs) :=
  ⟨⟨by decide, by decide⟩,
    save_load_roundtrip _ "model" ⟨["model"], []⟩ (by decide) (by decide)⟩

/-- C5: constructing a Classifier from any numeric hyperparameters (and any
extra keyword arguments) leaves the trained flag false, and fit succeeds on
the fresh instance and sets the flag true. -/
theorem construct_untrained_fit_trains (s l d w : ℚ)
    (kwargs : List (String × ℚ)) (learn : TrainData → Row → ℚ × ℚ)
    (X : List Row) (y : List ℕ) :
    (Classifier.init s l d w kwargs).is_trained = false
    ∧ ∃ c2, (Classifier.init s l d w kwargs).fit learn X y = .ok c2
        ∧ c2.is_trained = true :=
  ⟨rfl, ⟨_, rfl, rfl⟩⟩

/-- C6: for a fitted Classifier on a row-aligned binary test set, evaluate
returns precisely the F1 score of the thresholded labels against the true
targets, that score lies in the unit interval, and evaluate resolves the
sentinel threshold -1 exactly as predict does (to the current
decision_threshold field). -/
theorem evaluate_returns_f1_in_unit (c : Classifier) (m : DTModel)
    (inputs : List Row) (targets : List ℕ) (t : ℚ)
    (hm : c.model = some m) (hf : m.isFitted = true)
    (hlen : targets.length = inputs.length)
    (hbin : ∀ y ∈ targets, y = 0 ∨ y = 1) :
    ∃ s, c.evaluate inputs targets t = .ok (some s)
      ∧ f1_score targets
          ((inputs.map m.probaFn).map (fun p =>
            decide ((if t = -1 then c.decision_threshold else t) ≤ p.2)))
          = .ok s
      ∧ 0 ≤ s ∧ s ≤ 1
      ∧ c.evaluate inputs targets (-1)
          = c.evaluate inputs targets c.decision_threshold := by
  have hlen2 : targets.length
      = ((inputs.map m.probaFn).map (fun p =>
          decide ((if t = -1 then c.decision_threshold else t) ≤ p.2))).length := by
    simp [hlen]
  obtain ⟨s, hs⟩ := f1_score_isOk targets _ hlen2 hbin
  have hbounds := f1_score_mem_unit _ _ _ hs
  refine ⟨s, ?_, hs, hbounds.1, hbounds.2, evaluate_sentinel_eq c inputs targets⟩
  have hpp : c.predict_proba inputs = .ok (inputs.map m.probaFn) := by
    unfold Classifier.predict_proba DTModel.predict_proba
    rw [hm]
    simp [hf]
  unfold Classifier.evaluate
  rw [hm]
  simp only [hpp]
  rw [hs]

theorem evaluate_returns_f1_in_unit_witness :
    ((mkFitted (mkRat 1 2) (mkRat 3 10, mkRat 7 10)).model
        = some (mkFittedModel (mkRat 3 10, mkRat 7 10))
      ∧ (mkFittedModel (mkRat 3 10, mkRat 7 10)).isFitted = true
      ∧ ([1, 0] : List ℕ).length = ([[0], [1]] : List Row).length
      ∧ (∀ y ∈ ([1, 0] : List ℕ), y = 0 ∨ y = 1))
    ∧ ∃ s, (mkFitted (mkRat 1 2) (mkRat 3 10, mkRat 7 10)).evaluate
          [[0], [1]] [1, 0] (-1) = .ok (some s)
        ∧ f1_score [1, 0]
            (([[0], [1]].map (mkFittedModel (mkRat 3 10, mkRat 7 10)).probaFn).map
              (fun p => decide ((if (-1 : ℚ) = -1
                then (mkFitted (mkRat 1 2) (mkRat 3 10, mkRat 7 10)).decision_threshold
                else (-1 : ℚ)) ≤ p.2)))
            = .ok s
        ∧ 0 ≤ s ∧ s ≤ 1
        ∧ (mkFitted (mkRat 1 2) (mkRat 3 10, mkRat 7 10)).evaluate
              [[0], [1]] [1, 0] (-1)
            = (mkFitted (mkRat 1 2) (mkRat 3 10, mkRat 7 10)).evaluate
                [[0], [1]] [1, 0]
                (mkFitted (mkRat 1 2) (mkRat 3 10, mkRat 7 10)).decision_threshold :=
  ⟨⟨rfl, rfl, rfl, by decide⟩,
    evaluate_returns_f1_in_unit _ _ [[0], [1]] [1, 0] (-1) rfl rfl rfl
      (by decide)⟩

/-- C7: for a fitted Classifier whose model assigns positive-class
probabilities inside the unit interval (the library guarantee), predict with
threshold 0 labels every row positive and predict with threshold 1.01 labels
every row negative. -/
theorem predict_extreme_thresholds (c : Classifier) (m : DTModel)
    (inputs : List Row) (hm : c.model = some m) (hf : m.isFitted = true)
    (hp : ∀ r, 0 ≤ (m.probaFn r).2 ∧ (m.probaFn r).2 ≤ 1) :
    c.predict inputs 0 = .ok (List.replicate inputs.length true)
    ∧ c.predict inputs (mkRat 101 100)
        = .ok (List.replicate inputs.length false) := by
  have h101 : (1:ℚ) < mkRat 101 100 := by
    rw [Rat.mkRat_eq_divInt, Rat.divInt_eq_div]
    norm_num
  have hpp : c.predict_proba inputs = .ok (inputs.map m.probaFn) := by
    unfold Classifier.predict_proba DTModel.predict_proba
    rw [hm]
    simp [hf]
  constructor
  · have h0 : ¬ (0:ℚ) = -1 := by norm_num
    unfold Classifier.predict
    rw [hm]
    simp only [h0, if_false, hpp, Except.map]
    congr 1
    rw [List.map_map]
    have hl : (inputs.map (fun r =>
        decide ((0:ℚ) ≤ (m.probaFn r).2))).length = inputs.length :=
      List.length_map _ _
    rw [← hl]
    exact List.eq_replicate_length.mpr (by
      intro b hb
      obtain ⟨r, _, hr⟩ := List.mem_map.mp hb
      rw [← hr]
      exact decide_eq_true (hp r).1)
  · have hne : ¬ mkRat 101 100 = -1 := by
      intro hcontra
      rw [hcontra] at h101
      norm_num at h101
    unfold Classifier.predict
    rw [hm]
    simp only [hne, if_false, hpp, Except.map]
    congr 1
    rw [List.map_map]
    have hl : (inputs.map (fun r =>
        decide (mkRat 101 100 ≤ (m.probaFn r).2))).length = inputs.length :=
      List.length_map _ _
    rw [← hl]
    exact List.eq_replicate_length.mpr (by
      intro b hb
      obtain ⟨r, _, hr⟩ := List.mem_map.mp hb
      rw [← hr]
      exact decide_eq_false (not_le.mpr (lt_of_le_of_lt (hp r).2 h101)))

theorem predict_extreme_thresholds_witness :
    ((mkFitted (mkRat 1 2) (mkRat 3 10, mkRat 7 10)).model
        = some (mkFittedModel (mkRat 3 10, mkRat 7 10))
      ∧ (mkFittedModel (mkRat 3 10, mkRat 7 10)).isFitted = true
      ∧ (∀ r, 0 ≤ ((mkFittedModel (mkRat 3 10, mkRat 7 10)).probaFn r).2
          ∧ ((mkFittedModel (mkRat 3 10, mkRat 7 10)).probaFn r).2 ≤ 1))
    ∧ ((mkFitted (mkRat 1 2) (mkRat 3 10, mkRat 7 10)).predict [[0], [1]] 0
        = .ok (List.replicate ([[0], [1]] : List Row).length true)
      ∧ (mkFitted (mkRat 1 2) (mkRat 3 10, mkRat 7 10)).predict [[0], [1]]
          (mkRat 101 100)
        = .ok (List.replicate ([[0], [1]] : List Row).length false)) :=
  ⟨⟨rfl, rfl, fun _ => ⟨by show (0:ℚ) ≤ mkRat 7 10; decide,
      by show (mkRat 7 10 : ℚ) ≤ 1; decide⟩⟩,
    predict_extreme_thresholds _ _ [[0], [1]] rfl rfl
      (fun _ => ⟨by show (0:ℚ) ≤ mkRat 7 10; decide,
        by show (mkRat 7 10 : ℚ) ≤ 1; decide⟩)⟩

/-- C8: hyperparameter dicts with extra keys beyond the four recognised ones
construct exactly the same adapter as without them: the extra keys are
absorbed by the flexible keyword arguments and never read. -/
theorem extra_keys_ignored (d extra : List (String × ℚ))
    (h : ∀ kv ∈ extra, recognizedKeys.contains kv.1 = false) :
    classifierOfDict (d ++ extra) = classifierOfDict d := by
  unfold classifierOfDict
  rw [dictLookup_append_unrecognized d extra "min_samples_split" 2
      (by decide) h,
    dictLookup_append_unrecognized d extra "min_samples_leaf" 1
      (by decide) h,
    dictLookup_append_unrecognized d extra "decision_threshold" (mkRat 1 2)
      (by decide) h,
    dictLookup_append_unrecognized d extra "positive_class_weight" 1
      (by decide) h]
  rfl

theorem extra_keys_ignored_witness :
    (∀ kv ∈ [("model_type", (3:ℚ)), ("max_depth", (5:ℚ))],
      recognizedKeys.contains kv.1 = false)
    ∧ classifierOfDict
        ([("min_samples_split", (4:ℚ))]
          ++ [("model_type", (3:ℚ)), ("max_depth", (5:ℚ))])
      = classifierOfDict [("min_samples_split", (4:ℚ))] :=
  ⟨by decide, extra_keys_ignored _ _ (by decide)⟩

/-- C9: on a Classifier that has never been fitted (its wrapped model is
still unfitted), both predict and evaluate raise NotFittedError — the error
surfaces from the wrapped model rather than returning a result. -/
theorem unfitted_predict_evaluate_raise (c : Classifier) (m : DTModel)
    (inputs : List Row) (targets : List ℕ) (t : ℚ)
    (hm : c.model = some m) (hf : m.isFitted = false) :
    c.predict inputs t = .error .notFittedError
    ∧ c.evaluate inputs targets t = .error .notFittedError := by
  have hpp : c.predict_proba inputs = .error .notFittedError := by
    unfold Classifier.predict_proba DTModel.predict_proba
    rw [hm]
    simp [hf]
  constructor
  · unfold Classifier.predict
    rw [hm]
    simp only [hpp, Except.map]
  · unfold Classifier.evaluate
    rw [hm]
    simp only [hpp]

theorem unfitted_predict_evaluate_raise_witness :
    ((Classifier.init 2 1 (mkRat 1 2) 1 []).model = some initModel
      ∧ initModel.isFitted = false)
    ∧ ((Classifier.init 2 1 (mkRat 1 2) 1 []).predict [[0]] (-1)
        = .error .notFittedError
      ∧ (Classifier.init 2 1 (mkRat 1 2) 1 []).evaluate [[0]] [1] (-1)
        = .error .notFittedError) :=
  ⟨⟨rfl, rfl⟩, unfitted_predict_evaluate_raise _ _ [[0]] [1] (-1) rfl rfl⟩

/-- C10: calling save_predictor_model with an untrained Classifier and a
directory that does not exist creates the directory and then propagates the
NotFittedError; the created directory remains in the filesystem. -/
theorem save_model_creates_dir_then_raises (c : Classifier) (dir : String)
    (fs : FS) (h1 : c.is_trained = false)
    (h2 : fs.dirs.contains dir = false) :
    save_predictor_model c dir fs
      = ({ fs with dirs := dir :: fs.dirs }, .error .notFittedError)
    ∧ (save_predictor_model c dir fs).1.dirs.contains dir = true := by
  have key : save_predictor_model c dir fs
      = ({ fs with dirs := dir :: fs.dirs }, .error .notFittedError) := by
    unfold save_predictor_model
    rw [h2]
    simp [Classifier.save, h1]
  refine ⟨key, ?_⟩
  rw [key]
  simp

theorem save_model_creates_dir_then_raises_witness :
    ((Classifier.init 2 1 (mkRat 1 2) 1 []).is_trained = false
      ∧ (FS.mk [] []).dirs.contains "newdir" = false)
    ∧ (save_predictor_model (Classifier.init 2 1 (mkRat 1 2) 1 []) "newdir"
          ⟨[], []⟩
        = (⟨["newdir"], []⟩, .error .notFittedError)
      ∧ (save_predictor_model (Classifier.init 2 1 (mkRat 1 2) 1 []) "newdir"
          ⟨[], []⟩).1.dirs.contains "newdir" = true) :=
  ⟨⟨by decide, by decide⟩,
    save_model_creates_dir_then_raises _ "newdir" ⟨[], []⟩ (by decide)
      (by decide)⟩

end PredictorModel
